import Mathlib

/-!
# Verification of the product data-access layer

A shallow embedding of the server-side data-access functions of the
storefront repository (the `getProducts*` / `getCategories` /
`getSubCategoriesOfCategory` family) together with proofs of the testable
properties stated in the specification.

Modelling conventions:

* JavaScript numbers are restricted to integer values (`Int`), with `NaN`
  represented explicitly by `JsNum.nan`.  Every numeric literal appearing in
  the properties under verification is an integer, so this restriction loses
  nothing relevant.
* A raw search parameter is `string | string[] | undefined` in the source
  (`SearchParams`); this is the inductive `SearchValue`.
* The document database driver is modelled by an explicit `Db` value holding
  the collections, plus a fault-injection field `driverError`: when it is
  `some e`, every driver operation throws `e`; deterministic driver failure
  is how thrown database errors are made visible to the embedding.
* `unstable_cache` from the framework is not part of the repository; it is
  modelled from the spec (see `cacheCall`).
-/

deriving instance DecidableEq for Except

/-- A JavaScript number restricted to integer values; `nan` is `NaN`. -/
inductive JsNum where
  | nan : JsNum
  | val : Int → JsNum
deriving DecidableEq, Repr

/-- A raw search parameter: `string | string[] | undefined` in the source. -/
inductive SearchValue where
  | undef : SearchValue
  | str : String → SearchValue
  | arr : List String → SearchValue
deriving DecidableEq, Repr

/-! String primitives are re-implemented over `List Char` by structural
recursion so every definition evaluates inside the kernel. -/

/-- Split a character list at every occurrence of `sep`; the result always
has at least one (possibly empty) group, matching `String.prototype.split`
with a one-character separator. -/
def charsSplit (sep : Char) : List Char → List (List Char)
  | [] => [[]]
  | c :: cs =>
    match charsSplit sep cs with
    | [] => [[]]
    | g :: gs => if c = sep then [] :: g :: gs else (c :: g) :: gs

/-- `s.split(sep)` for a one-character separator. -/
def strSplit (sep : Char) (s : String) : List String :=
  (charsSplit sep s.data).map String.mk

/-- Accumulate decimal digits into a natural number. -/
def digitsAcc : List Char → Nat → Nat
  | [], acc => acc
  | c :: cs, acc => digitsAcc cs (acc * 10 + (c.toNat - 48))

/-- Value of a non-empty all-digit character list, `none` otherwise. -/
def charsToNat? (l : List Char) : Option Nat :=
  if l ≠ [] ∧ l.all Char.isDigit then some (digitsAcc l 0) else none

/-- Strip leading and trailing whitespace. -/
def charsTrim (l : List Char) : List Char :=
  ((l.dropWhile Char.isWhitespace).reverse.dropWhile Char.isWhitespace).reverse

/-- `Number(s)` on the trimmed character list: empty is `0`, an optionally
signed run of digits is its value, anything else is `NaN`. -/
def jsCharsToNumber : List Char → JsNum
  | [] => .val 0
  | c :: rest =>
    if c = '-' then
      match charsToNat? rest with
      | some n => .val (-(n : Int))
      | none => .nan
    else if c = '+' then
      match charsToNat? rest with
      | some n => .val (n : Int)
      | none => .nan
    else
      match charsToNat? (c :: rest) with
      | some n => .val (n : Int)
      | none => .nan

/-- `Number(s)` for a string.  (Fractional, hexadecimal and exponent
literals are outside the integer-valued model.) -/
def jsStrToNumber (s : String) : JsNum :=
  jsCharsToNumber (charsTrim s.data)

/-- `Number(v)` on a raw search parameter.  `Number(undefined) = NaN`;
an array coerces through its comma-join, so `[] ↦ 0`, a singleton behaves
like its element, and a longer array always contains a comma and is `NaN`. -/
def jsNumber : SearchValue → JsNum
  | .undef => .nan
  | .str s => jsStrToNumber s
  | .arr [] => .val 0
  | .arr [s] => jsStrToNumber s
  | .arr (_ :: _ :: _) => .nan

/-- `n || d` for a number `n`: `NaN` and `0` are falsy and yield `d`. -/
def jsOr (n : JsNum) (d : Int) : Int :=
  match n with
  | .nan => d
  | .val v => if v = 0 then d else v

/-- JavaScript truthiness of a raw search parameter: `undefined` and the
empty string are falsy; every array (even empty) is an object, hence truthy. -/
def truthy : SearchValue → Bool
  | .undef => false
  | .str s => s ≠ ""
  | .arr _ => true

/-- `parseFloat(s)` restricted to integer values: skip leading whitespace,
read an optional sign and the longest leading run of digits; an empty run
means `NaN`. -/
def jsParseFloat (s : String) : JsNum :=
  match s.data.dropWhile Char.isWhitespace with
  | [] => .nan
  | c :: rest =>
    let signed : Bool := c = '-'
    let core := if c = '-' ∨ c = '+' then rest else c :: rest
    match core.takeWhile Char.isDigit with
    | [] => .nan
    | ds =>
      if signed then .val (-(digitsAcc ds 0 : Int)) else .val (digitsAcc ds 0 : Int)

/-- `parseFloat(v)` on a raw search parameter: an array coerces to its
comma-join, so the leading numeric run of the first element decides. -/
def svParseFloat : SearchValue → JsNum
  | .undef => .nan
  | .str s => jsParseFloat s
  | .arr [] => .nan
  | .arr (s :: _) => jsParseFloat s

/-- Join strings with a separator (array-to-string coercion uses `","`). -/
def joinWith (sep : String) : List String → String
  | [] => ""
  | [s] => s
  | s :: rest => s ++ sep ++ joinWith sep rest

/-- String interpolation of a parameter inside a template literal after the
source applies `v || ""`: falsy values print as the empty string and an
array prints as its comma-join. -/
def svKeyStr : SearchValue → String
  | .undef => ""
  | .str s => s
  | .arr l => joinWith "," l

/-- `Math.ceil(a / b)` on integers (`b ≠ 0`): negated floor division of the
negation. -/
def ceilDiv (a b : Int) : Int := -((-a).fdiv b)

/-! ## Document model

The database models (`ProductModel`, `CategoryModel`, `SubcategoryModel`)
live outside the delivered sources.  Modelled from the spec: a product
carries id, name, description, images, price, inventory, category and
subcategory references and timestamps.  The optional fields `sex`,
`catId`, `catSlug` and `subCatSlug` model the nested document paths
`sex`, `category.id`, `category.slug` and `subCategory.slug` that the
source queries; they are `none` when the document lacks the path, and a
query on a missing path matches nothing. -/

structure Product where
  _id : String
  name : String
  description : String
  images : List String
  price : Int
  inventory : Int
  categoryId : String
  subcategoryId : String
  sex : Option String
  catId : Option String
  catSlug : Option String
  subCatSlug : Option String
  createdAt : Int
  updatedAt : Int
deriving DecidableEq, Repr

/-- A category document (id, name, slug, description, image). -/
structure Category where
  _id : String
  id : String
  name : String
  slug : String
  description : String
  image : String
deriving DecidableEq, Repr

/-- A subcategory document; `categorySlug` models the nested path
`category.slug` that `getSubCategoriesOfCategory` queries. -/
structure Subcategory where
  _id : String
  name : String
  slug : String
  categorySlug : String
deriving DecidableEq, Repr

/-- The database driver state: the three collections plus the
fault-injection field `driverError` (when `some e`, every driver operation
throws `e`). -/
structure Db where
  products : List Product
  categories : List Category
  subcategories : List Subcategory
  driverError : Option String
deriving DecidableEq, Repr

/-- `ProductModel.find(p)`: throws the injected driver error, otherwise
returns the matching documents in collection order. -/
def dbFind (db : Db) (p : Product → Bool) : Except String (List Product) :=
  match db.driverError with
  | some e => .error e
  | none => .ok (db.products.filter p)

/-- Insert into a list sorted by `le` (used to model a driver sort stage). -/
def insertLe {α : Type} (le : α → α → Bool) (x : α) : List α → List α
  | [] => [x]
  | y :: ys => if le x y then x :: y :: ys else y :: insertLe le x ys

/-- Stable insertion sort by a boolean comparison. -/
def sortLe {α : Type} (le : α → α → Bool) : List α → List α
  | [] => []
  | x :: xs => insertLe le x (sortLe le xs)

/-- `.sort({ createdAt: -1 })`: newest documents first. -/
def sortByCreatedAtDesc (l : List Product) : List Product :=
  sortLe (fun a b => decide (b.createdAt ≤ a.createdAt)) l

/-! ## `getProducts` -/

/-- The raw `SearchParams` fields that `getProducts` reads. -/
structure SearchInput where
  per_page : SearchValue := .undef
  page : SearchValue := .undef
  sort : SearchValue := .undef
  categories : SearchValue := .undef
  subcategories : SearchValue := .undef
  price_range : SearchValue := .undef
deriving DecidableEq, Repr

/-- The search parameters after schema validation: each field is a plain
optional string. -/
structure ParsedSearch where
  sort : Option String
  categories : Option String
  subcategories : Option String
  price_range : Option String
deriving DecidableEq, Repr

/-- Require a raw parameter to be a single string or absent; an array value
is a validation error. -/
def asOptStr : SearchValue → Except String (Option String)
  | .undef => .ok none
  | .str s => .ok (some s)
  | .arr _ => .error "Expected string, received array"

/-- Modelled from the spec: `getProductsSchema.parse` lives in the
validation module `@/lib/validations/product`, which is not among the
delivered sources.  The spec describes it as a schema step that validates
the flat search parameters and makes the caller return an empty result on
failure; it is modelled as requiring every read parameter to be a single
string when present, rejecting array values. -/
def getProductsSchema_parse (i : SearchInput) : Except String ParsedSearch := do
  let _ ← asOptStr i.per_page
  let _ ← asOptStr i.page
  let sort ← asOptStr i.sort
  let categories ← asOptStr i.categories
  let subcategories ← asOptStr i.subcategories
  let price_range ← asOptStr i.price_range
  pure { sort, categories, subcategories, price_range }

/-- `const limit = Number(input.per_page) || 10`. -/
def limitOf (input : SearchInput) : Int := jsOr (jsNumber input.per_page) 10

/-- `const page = Number(input.page) || 1`. -/
def pageOf (input : SearchInput) : Int := jsOr (jsNumber input.page) 1

/-- `const skip = (page - 1) * limit`. -/
def skipOf (input : SearchInput) : Int := (pageOf input - 1) * limitOf input

/-- `search.sort?.split(".") ?? ["createdAt", "desc"]`. -/
def sortArrOf (search : ParsedSearch) : List String :=
  (search.sort.map (strSplit '.')).getD ["createdAt", "desc"]

/-- The destructured `sortField` (first element of the split). -/
def sortFieldOf (search : ParsedSearch) : Option String :=
  (sortArrOf search).get? 0

/-- The destructured `sortOrder` (second element of the split). -/
def sortOrderOf (search : ParsedSearch) : Option String :=
  (sortArrOf search).get? 1

/-- `sortOrder === "asc" ? 1 : -1` in the `$sort` stage. -/
def sortDirOf (search : ParsedSearch) : Int :=
  if sortOrderOf search = some "asc" then 1 else -1

/-- The filter object built by `getProducts`: optional `$in` clauses on the
category and subcategory ids and optional `$gte`/`$lte` clauses on the
price.  The price bounds are the raw substrings of `price_range`, exactly
as in the source (no numeric conversion happens there). -/
structure ProductFilter where
  categoryIdIn : Option (List String)
  subcategoryIdIn : Option (List String)
  priceGte : Option String
  priceLte : Option String
deriving DecidableEq, Repr

/-- Build the filter from the validated search parameters (source lines
31 to 48): dot-split id lists become `$in` clauses when non-empty, and the
dash-split price range contributes `$gte`/`$lte` for each defined part. -/
def filterOf (search : ParsedSearch) : ProductFilter :=
  let categoryIds := (search.categories.map (strSplit '.')).getD []
  let subcategoryIds := (search.subcategories.map (strSplit '.')).getD []
  let priceParts := (search.price_range.map (strSplit '-')).getD []
  { categoryIdIn := if categoryIds.length > 0 then some categoryIds else none
    subcategoryIdIn := if subcategoryIds.length > 0 then some subcategoryIds else none
    priceGte := priceParts.get? 0
    priceLte := priceParts.get? 1 }

/-- Whether a product document satisfies the filter.  A string-valued
`$gte`/`$lte` bound never matches the numeric `price` field (the driver
compares values type by type, and numbers and strings are never ordered
against each other), so a present price clause excludes every document of
the model. -/
def matchesFilter (f : ProductFilter) (p : Product) : Bool :=
  (match f.categoryIdIn with
   | none => true
   | some ids => ids.contains p.categoryId) &&
  (match f.subcategoryIdIn with
   | none => true
   | some ids => ids.contains p.subcategoryId) &&
  (match f.priceGte with
   | none => true
   | some _ => false) &&
  (match f.priceLte with
   | none => true
   | some _ => false)

/-- The `$project` stage output of the `getProducts` pipeline. -/
structure ProjectedProduct where
  id : String
  name : String
  description : String
  images : List String
  category : String
  subcategory : String
  price : Int
  inventory : Int
  createdAt : Int
  updatedAt : Int
deriving DecidableEq, Repr

/-- The two `$lookup`/`$unwind` pairs followed by `$project`: join the
category and subcategory documents by id and keep only their names; a
product whose lookup finds no document is dropped by `$unwind`. -/
def joinProject (db : Db) (p : Product) : Option ProjectedProduct := do
  let c ← db.categories.find? (fun c => c._id == p.categoryId)
  let s ← db.subcategories.find? (fun s => s._id == p.subcategoryId)
  pure { id := p._id, name := p.name, description := p.description,
         images := p.images, category := c.name, subcategory := s.name,
         price := p.price, inventory := p.inventory,
         createdAt := p.createdAt, updatedAt := p.updatedAt }

/-- A value at a sortable document path, ordered the way the driver orders
mixed types: missing below numbers below strings. -/
inductive BsonVal where
  | missing : BsonVal
  | num : Int → BsonVal
  | str : String → BsonVal
deriving DecidableEq, Repr

/-- Lexicographic comparison of character lists by code point. -/
def charsLe : List Char → List Char → Bool
  | [], _ => true
  | _ :: _, [] => false
  | a :: as, b :: bs => if a = b then charsLe as bs else decide (a.toNat < b.toNat)

/-- Driver ordering on sortable values. -/
def bsonLe : BsonVal → BsonVal → Bool
  | .missing, _ => true
  | .num _, .missing => false
  | .num a, .num b => decide (a ≤ b)
  | .num _, .str _ => true
  | .str _, .missing => false
  | .str _, .num _ => false
  | .str a, .str b => charsLe a.data b.data

/-- The value of a projected document at a dynamic field name; an unknown
name behaves as a missing path.  (Sorting on the array field `images` is
not modelled; no call site sorts on it.) -/
def fieldVal (d : ProjectedProduct) (f : String) : BsonVal :=
  if f = "id" then .str d.id
  else if f = "name" then .str d.name
  else if f = "description" then .str d.description
  else if f = "category" then .str d.category
  else if f = "subcategory" then .str d.subcategory
  else if f = "price" then .num d.price
  else if f = "inventory" then .num d.inventory
  else if f = "createdAt" then .num d.createdAt
  else if f = "updatedAt" then .num d.updatedAt
  else .missing

/-- The `$sort` stage on a dynamic field: ascending when the direction is
`1`, descending otherwise. -/
def sortByField (l : List ProjectedProduct) (f : String) (dir : Int) : List ProjectedProduct :=
  if dir = 1 then sortLe (fun a b => bsonLe (fieldVal a f) (fieldVal b f)) l
  else sortLe (fun a b => bsonLe (fieldVal b f) (fieldVal a f)) l

/-- `ProductModel.aggregate` with the `getProducts` pipeline: `$match`,
the two joins, `$project`, `$sort`, `$skip`, `$limit`.  The driver rejects
a negative `$skip` and a non-positive `$limit`. -/
def dbAggregate (db : Db) (filter : ProductFilter) (sortField : String)
    (dir : Int) (skip limit : Int) : Except String (List ProjectedProduct) :=
  match db.driverError with
  | some e => .error e
  | none =>
    if skip < 0 then .error "invalid skip value"
    else if limit ≤ 0 then .error "invalid limit value"
    else
      let matched := db.products.filter (matchesFilter filter)
      let joined := matched.filterMap (joinProject db)
      let sorted := sortByField joined sortField dir
      .ok ((sorted.drop skip.toNat).take limit.toNat)

/-- `ProductModel.countDocuments(filter)`. -/
def dbCount (db : Db) (filter : ProductFilter) : Except String Nat :=
  match db.driverError with
  | some e => .error e
  | none => .ok (db.products.filter (matchesFilter filter)).length

/-- The `{data, pageCount}` shape returned by `getProducts`. -/
structure GetProductsResult where
  data : List ProjectedProduct
  pageCount : Int
deriving DecidableEq, Repr

/-- The `try` block of `getProducts`: compute pagination from the raw
input, validate the input against the schema, build the sort pair and the
filter, run the aggregation, count the matching documents and round the
page count up. -/
def getProductsBody (input : SearchInput) (db : Db) : Except String GetProductsResult := do
  let limit := limitOf input
  let skip := skipOf input
  let search ← getProductsSchema_parse input
  let sortField := (sortFieldOf search).getD "undefined"
  let dir := sortDirOf search
  let filter := filterOf search
  let products ← dbAggregate db filter sortField dir skip limit
  let total ← dbCount db filter
  pure { data := products, pageCount := ceilDiv (Int.ofNat total) limit }

/-- `getProducts`: the `try` block with its `catch`, which swallows every
error and returns the empty first page. -/
def getProducts (input : SearchInput) (db : Db) : GetProductsResult :=
  match getProductsBody input db with
  | .ok r => r
  | .error _ => { data := [], pageCount := 0 }

/-! ## The cache wrapper

Modelled from the spec: `unstable_cache` belongs to the framework, not to
the repository.  The spec describes it as executing a read callback at most
once within the revalidation window, keyed by a string-list cache key, with
later calls inside the window returning the previously cached value; tag
based invalidation is triggered externally and is not modelled.  A store
maps keys to cached values with their store time; each wrapped reader
threads its own store (the real cache is one heterogeneous process-wide
store, which the claims never need).  A callback that throws caches
nothing and the error propagates to the caller of the wrapper. -/

/-- One cached value and the second at which it was stored. -/
structure CacheEntry (α : Type) where
  value : α
  storedAt : Nat
deriving DecidableEq, Repr

/-- The cache store of one wrapped reader. -/
structure CacheStore (α : Type) where
  entries : List (List String × CacheEntry α)
deriving DecidableEq, Repr

/-- The store with no cached values. -/
def emptyStore {α : Type} : CacheStore α := ⟨[]⟩

/-- Look a cache key up in the store. -/
def lookupEntry {α : Type} (store : CacheStore α) (key : List String) : Option (CacheEntry α) :=
  (store.entries.find? (fun e => e.1 == key)).map (fun e => e.2)

/-- One call through the cache wrapper at time `now` (in seconds): a fresh
entry inside the revalidation window answers without running the callback;
otherwise the callback runs and, when it succeeds, its value replaces the
entry.  Returns the value, the new store and whether the callback ran.
The `tags` argument only feeds external invalidation and is unused here. -/
def cacheCall {α : Type} (store : CacheStore α) (now : Nat) (key tags : List String)
    (revalidate : Nat) (cb : Unit → Except String α) :
    Except String α × CacheStore α × Bool :=
  let _ := tags
  match lookupEntry store key with
  | some entry =>
    if now - entry.storedAt < revalidate then (.ok entry.value, store, false)
    else
      match cb () with
      | .ok v => (.ok v, ⟨(key, ⟨v, now⟩) :: store.entries.filter (fun e => e.1 ≠ key)⟩, true)
      | .error e => (.error e, store, true)
  | none =>
    match cb () with
    | .ok v => (.ok v, ⟨(key, ⟨v, now⟩) :: store.entries.filter (fun e => e.1 ≠ key)⟩, true)
    | .error e => (.error e, store, true)

/-! ## Plain cache-wrapped readers

Each reader takes the database, its cache store and the current time, and
returns the (possibly thrown) value, the updated store and whether the
read callback was invoked.  None of them catches callback errors. -/

/-- `getFeaturedProducts`: the eight newest products, cached under the
constant key `featured-products`. -/
def getFeaturedProducts (db : Db) (store : CacheStore (List Product)) (now : Nat) :
    Except String (List Product) × CacheStore (List Product) × Bool :=
  cacheCall store now ["featured-products"] ["featured-products"] 3600
    (fun _ => (dbFind db (fun _ => true)).map (fun ps => (sortByCreatedAtDesc ps).take 8))

/-- `ProductModel.countDocuments(p)` under fault injection. -/
def dbCountBy (db : Db) (p : Product → Bool) : Except String Nat :=
  match db.driverError with
  | some e => .error e
  | none => .ok (db.products.filter p).length

/-- `getProductCountByCategory`: count of products whose embedded
`category.id` equals the argument, cached under a key derived from it. -/
def getProductCountByCategory (db : Db) (store : CacheStore Nat) (now : Nat)
    (categoryId : String) : Except String Nat × CacheStore Nat × Bool :=
  cacheCall store now ["product-count-" ++ categoryId] ["product-count-" ++ categoryId] 3600
    (fun _ => dbCountBy db (fun p => p.catId == some categoryId))

/-- The `$project` output of the `getCategories` pipeline. -/
structure ProjectedCategory where
  id : String
  name : String
  slug : String
  description : String
  image : String
deriving DecidableEq, Repr

/-- `getCategories`: all categories projected and sorted by name
descending, cached under the constant key `categories`. -/
def getCategories (db : Db) (store : CacheStore (List ProjectedCategory)) (now : Nat) :
    Except String (List ProjectedCategory) × CacheStore (List ProjectedCategory) × Bool :=
  cacheCall store now ["categories"] ["categories"] 3600
    (fun _ =>
      match db.driverError with
      | some e => .error e
      | none =>
        .ok (sortLe (fun a b => charsLe b.name.data a.name.data)
          (db.categories.map (fun c =>
            { id := c.id, name := c.name, slug := c.slug,
              description := c.description, image := c.image }))))

/-- `ProductModel.findById` under fault injection. -/
def dbFindById (db : Db) (productId : String) : Except String (Option Product) :=
  match db.driverError with
  | some e => .error e
  | none => .ok (db.products.find? (fun p => p._id == productId))

/-- `getProductById`: one document by id, cached under a key derived from
the id. -/
def getProductById (db : Db) (store : CacheStore (Option Product)) (now : Nat)
    (productId : String) : Except String (Option Product) × CacheStore (Option Product) × Bool :=
  cacheCall store now ["product-" ++ productId] ["product-" ++ productId] 3600
    (fun _ => dbFindById db productId)

/-- The read callback of `getRelatedProducts`: look the product up by id;
when it is missing return the empty list at once, otherwise run the
`$or` query on the category and subcategory references and keep the four
newest results.  The boolean records whether the `$or` query was issued. -/
def getRelatedProductsCb (db : Db) (productId : String) :
    Except String (List Product × Bool) := do
  let product ← dbFindById db productId
  match product with
  | none => pure ([], false)
  | some p =>
    let related ← dbFind db (fun q => q.categoryId == p.categoryId || q.subcategoryId == p.subcategoryId)
    pure ((sortByCreatedAtDesc related).take 4, true)

/-- `getRelatedProducts`, cached under a key derived from the product id. -/
def getRelatedProducts (db : Db) (store : CacheStore (List Product × Bool)) (now : Nat)
    (productId : String) :
    Except String (List Product × Bool) × CacheStore (List Product × Bool) × Bool :=
  cacheCall store now ["related-products-" ++ productId] ["related-products-" ++ productId] 3600
    (fun _ => getRelatedProductsCb db productId)

/-! ## Envelope-returning readers -/

/-- Modelled from the spec: the `ApiResponse` helper is not among the
delivered sources; the spec gives the envelope as
`{success: true, message, data} | {success: false, message}`. -/
inductive ApiResp (α : Type) where
  | success (message : String) (data : α)
  | failure (message : String)
deriving DecidableEq, Repr

/-- The four named search parameters `getProductsByCategory` reads. -/
structure CatSearchParams where
  sex : SearchValue := .undef
  subcategory : SearchValue := .undef
  gte : SearchValue := .undef
  lte : SearchValue := .undef
deriving DecidableEq, Repr

/-- The match-conditions object of `getProductsByCategory`: always the
category slug, plus the optional `sex`, `subCategory.slug`, `price.$gte`
and `price.$lte` restrictions.  A field is `none` exactly when the source
adds no such key. -/
structure MatchConditions where
  categorySlug : String
  sex : Option SearchValue
  subCategorySlug : Option SearchValue
  priceGte : Option JsNum
  priceLte : Option JsNum
deriving DecidableEq, Repr

/-- Build the match conditions (source lines 221 to 237): each restriction
is added only when the raw parameter is truthy, and the price bounds go
through `parseFloat`. -/
def buildMatchConditions (category : String) (sp : CatSearchParams) : MatchConditions :=
  { categorySlug := category
    sex := if truthy sp.sex then some sp.sex else none
    subCategorySlug := if truthy sp.subcategory then some sp.subcategory else none
    priceGte := if truthy sp.gte then some (svParseFloat sp.gte) else none
    priceLte := if truthy sp.lte then some (svParseFloat sp.lte) else none }

/-- Driver equality of a query value against an optional scalar string
field: only a plain string matches, and only when the path is present with
that value. -/
def condEq : SearchValue → Option String → Bool
  | .str s, some t => s == t
  | _, _ => false

/-- Whether the numeric `price` satisfies an optional bound; an absent
bound always holds and a `NaN` bound never does. -/
def numGe (price : Int) : Option JsNum → Bool
  | none => true
  | some .nan => false
  | some (.val v) => decide (v ≤ price)

/-- Whether `price` is at most an optional `$lte` bound. -/
def numLe (price : Int) : Option JsNum → Bool
  | none => true
  | some .nan => false
  | some (.val v) => decide (price ≤ v)

/-- Whether a product document satisfies the match conditions. -/
def matchesConditions (mc : MatchConditions) (p : Product) : Bool :=
  (p.catSlug == some mc.categorySlug) &&
  (match mc.sex with
   | none => true
   | some v => condEq v p.sex) &&
  (match mc.subCategorySlug with
   | none => true
   | some v => condEq v p.subCatSlug) &&
  numGe p.price mc.priceGte &&
  numLe p.price mc.priceLte

/-- The dynamic cache key of `getProductsByCategory`: the category and the
four parameters interpolated with `|| ""`. -/
def getProductsByCategoryKey (category : String) (sp : CatSearchParams) : String :=
  "products-" ++ category ++ "-" ++ svKeyStr sp.sex ++ "-" ++ svKeyStr sp.subcategory
    ++ "-" ++ svKeyStr sp.gte ++ "-" ++ svKeyStr sp.lte

/-- The tag list of `getProductsByCategory`: the category tag followed by
one tag per present search parameter.  (`Object.entries` is modelled in
the declared field order of `SearchParams`.) -/
def getProductsByCategoryTags (category : String) (sp : CatSearchParams) : List String :=
  ("products-" ++ category) ::
    (([("sex", sp.sex), ("gte", sp.gte), ("lte", sp.lte), ("subcategory", sp.subcategory)].filter
        (fun e => e.2 ≠ .undef)).map
      (fun e => "products-" ++ category ++ "-" ++ e.1 ++ "-" ++ svKeyStr e.2))

/-- `SubcategoryModel.find({"category.slug": slug})` under fault
injection. -/
def dbFindSubcategories (db : Db) (slug : String) : Except String (List Subcategory) :=
  match db.driverError with
  | some e => .error e
  | none => .ok (db.subcategories.filter (fun c => c.categorySlug == slug))

/-- The read callback of `getProductsByCategory`: find the matching
products sorted newest first and wrap them in a success envelope; a thrown
driver error is caught and becomes a failure envelope, so the callback
itself never throws. -/
def getProductsByCategoryCb (db : Db) (category : String) (mc : MatchConditions) :
    Except String (ApiResp (List Product)) :=
  .ok (match dbFind db (matchesConditions mc) with
    | .ok ps => .success ("Successfully fetched products for category: " ++ category)
        (sortByCreatedAtDesc ps)
    | .error e => .failure e)

/-- `getProductsByCategory`: build the match conditions, then run the
envelope-returning callback through the cache under the dynamic key. -/
def getProductsByCategory (db : Db) (store : CacheStore (ApiResp (List Product))) (now : Nat)
    (category : String) (sp : CatSearchParams) :
    Except String (ApiResp (List Product)) × CacheStore (ApiResp (List Product)) × Bool :=
  cacheCall store now [getProductsByCategoryKey category sp]
    (getProductsByCategoryTags category sp) 3600
    (fun _ => getProductsByCategoryCb db category (buildMatchConditions category sp))

/-- The read callback of `getSubCategoriesOfCategory`: the subcategories
of the slug in a success envelope, or a failure envelope when the driver
throws; the callback itself never throws. -/
def getSubCategoriesOfCategoryCb (db : Db) (slug : String) :
    Except String (ApiResp (List Subcategory)) :=
  .ok (match dbFindSubcategories db slug with
    | .ok cs => .success "Fetched subcategories!" cs
    | .error e => .failure e)

/-- `getSubCategoriesOfCategory`: the envelope-returning callback cached
under the constant key `subcategories` with the constant tag list, for
every slug. -/
def getSubCategoriesOfCategory (db : Db) (store : CacheStore (ApiResp (List Subcategory)))
    (now : Nat) (slug : String) :
    Except String (ApiResp (List Subcategory)) × CacheStore (ApiResp (List Subcategory)) × Bool :=
  cacheCall store now ["subcategories"] ["subcategories"] 3600
    (fun _ => getSubCategoriesOfCategoryCb db slug)

/-! ## Cache wrapper lemmas -/

/-- A miss followed by a successful callback stores the value. -/
theorem cacheCall_miss_ok {α : Type} (store : CacheStore α) (now : Nat) (key tags : List String)
    (reval : Nat) (cb : Unit → Except String α) (v : α)
    (hmiss : lookupEntry store key = none) (hcb : cb () = .ok v) :
    cacheCall store now key tags reval cb =
      (.ok v, ⟨(key, ⟨v, now⟩) :: store.entries.filter (fun e => e.1 ≠ key)⟩, true) := by
  simp [cacheCall, hmiss, hcb]

/-- A miss with a throwing callback propagates the error, stores nothing. -/
theorem cacheCall_miss_err {α : Type} (store : CacheStore α) (now : Nat) (key tags : List String)
    (reval : Nat) (cb : Unit → Except String α) (e : String)
    (hmiss : lookupEntry store key = none) (hcb : cb () = .error e) :
    cacheCall store now key tags reval cb = (.error e, store, true) := by
  simp [cacheCall, hmiss, hcb]

/-- A fresh hit answers from the store without running the callback. -/
theorem cacheCall_hit {α : Type} (store : CacheStore α) (now : Nat) (key tags : List String)
    (reval : Nat) (cb : Unit → Except String α) (entry : CacheEntry α)
    (hhit : lookupEntry store key = some entry) (hfresh : now - entry.storedAt < reval) :
    cacheCall store now key tags reval cb = (.ok entry.value, store, false) := by
  simp [cacheCall, hhit, hfresh]

/-- The key just stored is found. -/
theorem lookupEntry_cons_self {α : Type} (entry : CacheEntry α) (key : List String)
    (rest : List (List String × CacheEntry α)) :
    lookupEntry ⟨(key, entry) :: rest⟩ key = some entry := by
  simp [lookupEntry, List.find?]

/-- Two calls through an empty cache under one key and within the window:
the first runs its callback and stores, the second answers from the store;
the callbacks may differ (the second is never consulted). -/
theorem cacheCall_two {α : Type} (now1 now2 reval : Nat) (key tags1 tags2 : List String)
    (cb1 cb2 : Unit → Except String α) (v : α)
    (hcb : cb1 () = .ok v) (hwin : now2 - now1 < reval) :
    cacheCall emptyStore now1 key tags1 reval cb1 = (.ok v, ⟨[(key, ⟨v, now1⟩)]⟩, true) ∧
    cacheCall (⟨[(key, ⟨v, now1⟩)]⟩ : CacheStore α) now2 key tags2 reval cb2 =
      (.ok v, ⟨[(key, ⟨v, now1⟩)]⟩, false) := by
  constructor
  · simpa using cacheCall_miss_ok emptyStore now1 key tags1 reval cb1 v rfl hcb
  · exact cacheCall_hit _ now2 key tags2 reval cb2 ⟨v, now1⟩
      (lookupEntry_cons_self ⟨v, now1⟩ key []) hwin

/-- A reader of the shape `cacheCall` under a fixed key: starting from the
empty store, the first call invokes the callback, and a second call within
the window answers the first value without invoking it again. -/
theorem reader_two_calls {α : Type}
    (R : CacheStore α → Nat → Except String α × CacheStore α × Bool)
    (key tags : List String) (reval : Nat) (cb : Unit → Except String α)
    (hR : ∀ store now, R store now = cacheCall store now key tags reval cb)
    (hcb : (cb ()).isOk = true) (now1 now2 : Nat) (hwin : now2 - now1 < reval) :
    (R emptyStore now1).2.2 = true ∧
    (R (R emptyStore now1).2.1 now2).2.2 = false ∧
    (R (R emptyStore now1).2.1 now2).1 = (R emptyStore now1).1 := by
  cases h : cb () with
  | error e => rw [h] at hcb; simp [Except.isOk, Except.toBool] at hcb
  | ok v =>
    have htwo := cacheCall_two now1 now2 reval key tags tags cb cb v h hwin
    rw [hR emptyStore now1, htwo.1]
    rw [hR _ now2]
    simp only
    rw [htwo.2]
    simp

/-! ## Claim theorems -/

/-- C1: In `getProducts`, a price-range string of the form `min-max`
contributes `$gte` from the min part and `$lte` from the max part; a
string without a dash contributes only `$gte`, and an absent price range
contributes neither clause. -/
theorem getProducts_price_range_clauses (search : ParsedSearch) :
    (∀ s minP maxP, search.price_range = some s → strSplit '-' s = [minP, maxP] →
      (filterOf search).priceGte = some minP ∧ (filterOf search).priceLte = some maxP) ∧
    (∀ s minP, search.price_range = some s → strSplit '-' s = [minP] →
      (filterOf search).priceGte = some minP ∧ (filterOf search).priceLte = none) ∧
    (search.price_range = none →
      (filterOf search).priceGte = none ∧ (filterOf search).priceLte = none) := by
  refine ⟨?_, ?_, ?_⟩
  · intro s minP maxP hpr hsplit
    simp [filterOf, hpr, hsplit]
  · intro s minP hpr hsplit
    simp [filterOf, hpr, hsplit]
  · intro hpr
    simp [filterOf, hpr]

/-- A parsed search whose only present parameter is the price range `10-20`. -/
def searchPr1020 : ParsedSearch := ⟨none, none, none, some "10-20"⟩

/-- A parsed search with every parameter absent. -/
def searchEmpty : ParsedSearch := ⟨none, none, none, none⟩

/-- Witness for C1 at the concrete range `10-20` and at an absent range. -/
theorem getProducts_price_range_clauses_witness :
    ((filterOf searchPr1020).priceGte = some "10" ∧
      (filterOf searchPr1020).priceLte = some "20") ∧
    (filterOf searchEmpty).priceGte = none :=
  ⟨(getProducts_price_range_clauses searchPr1020).1 "10-20" "10" "20" rfl (by decide),
   ((getProducts_price_range_clauses searchEmpty).2.2 rfl).1⟩

/-- C2: in `getProducts` the computed skip is `(page - 1) * limit`, and
`limit`/`page` fall back to `10`/`1` when the raw parameter is absent or
does not parse to a number. -/
theorem getProducts_skip_formula (input : SearchInput) :
    skipOf input = (pageOf input - 1) * limitOf input ∧
    (input.per_page = .undef ∨ jsNumber input.per_page = .nan → limitOf input = 10) ∧
    (input.page = .undef ∨ jsNumber input.page = .nan → pageOf input = 1) := by
  refine ⟨rfl, ?_, ?_⟩
  · rintro (h | h)
    · simp [limitOf, jsOr, h, jsNumber]
    · simp [limitOf, jsOr, h]
  · rintro (h | h)
    · simp [pageOf, jsOr, h, jsNumber]
    · simp [pageOf, jsOr, h]

/-- A raw input with no `per_page` and a non-numeric `page`. -/
def inputBadPage : SearchInput := { page := .str "abc" }

/-- Witness for C2: an absent `per_page` and a non-numeric `page`. -/
theorem getProducts_skip_formula_witness :
    limitOf inputBadPage = 10 ∧ pageOf inputBadPage = 1 ∧
    skipOf inputBadPage = (pageOf inputBadPage - 1) * limitOf inputBadPage :=
  ⟨(getProducts_skip_formula inputBadPage).2.1 (Or.inl rfl),
   (getProducts_skip_formula inputBadPage).2.2 (Or.inr (by decide)),
   (getProducts_skip_formula inputBadPage).1⟩

/-- C4: `getProductsByCategory("shoes", {sex: "men", gte: "50"})` builds
exactly the conditions `category.slug = "shoes"`, `sex = "men"` and
`price.$gte = 50` (the string converted to the number 50), with no
subcategory and no `$lte` restriction. -/
theorem getProductsByCategory_shoes_example :
    buildMatchConditions "shoes" { sex := .str "men", gte := .str "50" } =
      { categorySlug := "shoes", sex := some (.str "men"), subCategorySlug := none,
        priceGte := some (.val 50), priceLte := none } := by
  decide

/-- C6: with no sort parameter the `$sort` stage of `getProducts` uses
`createdAt` descending, and any direction other than `asc` yields the
descending direction `-1`. -/
theorem getProducts_sort_default (search : ParsedSearch) :
    (search.sort = none → sortFieldOf search = some "createdAt" ∧ sortDirOf search = -1) ∧
    (sortOrderOf search ≠ some "asc" → sortDirOf search = -1) := by
  constructor
  · intro h
    constructor
    · simp [sortFieldOf, sortArrOf, h]
    · simp [sortDirOf, sortOrderOf, sortArrOf, h]
  · intro h
    simp [sortDirOf, h]

/-- A parsed search sorting by price descending. -/
def searchPriceDesc : ParsedSearch := ⟨some "price.desc", none, none, none⟩

/-- A database with empty collections and a healthy driver. -/
def dbEmpty : Db := ⟨[], [], [], none⟩

/-- Binding a thrown error short-circuits. -/
theorem except_bind_error {ε α β : Type} (e : ε) (f : α → Except ε β) :
    (Except.error e >>= f) = Except.error e := rfl

/-- Binding a successful value applies the continuation. -/
theorem except_bind_ok {ε α β : Type} (a : α) (f : α → Except ε β) :
    (Except.ok a >>= f) = f a := rfl

/-- Mapping over a thrown error short-circuits. -/
theorem except_map_error {ε α β : Type} (e : ε) (f : α → β) :
    (f <$> (Except.error e : Except ε α)) = Except.error e := rfl

/-- Mapping over a successful value applies the function. -/
theorem except_map_ok {ε α β : Type} (a : α) (f : α → β) :
    (f <$> (Except.ok a : Except ε α)) = Except.ok (f a) := rfl

/-- C3: an input failing schema validation, and more generally any error
thrown inside the `try` block, makes `getProducts` return
`{data: [], pageCount: 0}` instead of propagating the error. -/
theorem getProducts_swallows_errors (input : SearchInput) (db : Db) (e : String) :
    (getProductsSchema_parse input = .error e →
      getProducts input db = { data := [], pageCount := 0 }) ∧
    (getProductsBody input db = .error e →
      getProducts input db = { data := [], pageCount := 0 }) := by
  constructor
  · intro h
    have hbody : getProductsBody input db = .error e := by
      simp [getProductsBody, h, except_bind_error]
    simp [getProducts, hbody]
  · intro h
    simp [getProducts, h]

/-- A raw input whose `per_page` is an array, which the schema rejects. -/
def inputArrPerPage : SearchInput := { per_page := .arr ["2"] }

/-- Witness for C3: the array-valued input is rejected by the schema and
`getProducts` degrades to the empty page. -/
theorem getProducts_swallows_errors_witness :
    getProducts inputArrPerPage dbEmpty = { data := [], pageCount := 0 } :=
  (getProducts_swallows_errors inputArrPerPage dbEmpty
    "Expected string, received array").1 (by decide)

/-- A successful `countDocuments` returns the number of matching
documents. -/
theorem dbCount_ok (db : Db) (f : ProductFilter) (t : Nat)
    (h : dbCount db f = .ok t) :
    t = (db.products.filter (matchesFilter f)).length := by
  unfold dbCount at h
  cases hdb : db.driverError <;> rw [hdb] at h <;> simp at h
  exact h.symm

/-- The example category, subcategory, products and database of the spec:
two products priced 20 and 10 in one category and subcategory. -/
def exCat : Category := ⟨"c1", "c1", "Shoes", "shoes", "", ""⟩

/-- The example subcategory. -/
def exSub : Subcategory := ⟨"s1", "Sneakers", "sneakers", "shoes"⟩

/-- The example product priced 20. -/
def exP1 : Product := ⟨"p1", "A", "", [], 20, 5, "c1", "s1", none, none, none, none, 100, 100⟩

/-- The example product priced 10. -/
def exP2 : Product := ⟨"p2", "B", "", [], 10, 5, "c1", "s1", none, none, none, none, 200, 200⟩

/-- The example database. -/
def exDb : Db := ⟨[exP1, exP2], [exCat], [exSub], none⟩

/-- The example input `{per_page: "2", page: "1", sort: "price.asc"}`. -/
def exInput : SearchInput := { per_page := .str "2", page := .str "1", sort := .str "price.asc" }

/-- C8: on the example input `{per_page: "2", page: "1", sort: "price.asc"}`
over the two products priced 10 and 20 the returned data is sorted
ascending by price with page count `ceil(2/2) = 1`; and in general every
successful run returns a page count of `ceil(total/limit)` where `total`
counts the documents matching the filter. -/
theorem getProducts_sorted_example_and_pageCount :
    (getProducts exInput exDb).data.map (fun d => d.price) = [10, 20] ∧
    (getProducts exInput exDb).pageCount = 1 ∧
    (∀ input db search r, getProductsSchema_parse input = .ok search →
      getProductsBody input db = .ok r →
      r.pageCount =
        ceilDiv (Int.ofNat (db.products.filter (matchesFilter (filterOf search))).length)
          (limitOf input)) := by
  refine ⟨by decide, by decide, ?_⟩
  intro input db search r hp hb
  simp only [getProductsBody, hp, except_bind_ok] at hb
  cases hagg : dbAggregate db (filterOf search) ((sortFieldOf search).getD "undefined")
      (sortDirOf search) (skipOf input) (limitOf input) with
  | error e =>
    rw [hagg, except_bind_error] at hb
    exact absurd hb (by simp)
  | ok products =>
    rw [hagg, except_bind_ok] at hb
    cases hc : dbCount db (filterOf search) with
    | error e =>
      rw [hc] at hb
      exact absurd hb (by simp [except_bind_error, except_map_error])
    | ok total =>
      rw [hc] at hb
      simp only [except_bind_ok, except_map_ok, pure, Except.pure, Except.ok.injEq] at hb
      rw [← hb, dbCount_ok db (filterOf search) total hc]

/-- Witness for C6: an absent sort parameter and a `price.desc` sort. -/
theorem getProducts_sort_default_witness :
    (sortFieldOf searchEmpty = some "createdAt" ∧ sortDirOf searchEmpty = -1) ∧
    sortDirOf searchPriceDesc = -1 :=
  ⟨(getProducts_sort_default searchEmpty).1 rfl,
   (getProducts_sort_default searchPriceDesc).2 (by decide)⟩

/-- C5: every cache-wrapped reader, called twice with an identical cache
key within the revalidation window, runs its read callback only on the
first call and answers the second from the cache; every call site fixes
the window at 3600 seconds. -/
theorem cached_readers_invoke_once (db : Db) (hdb : db.driverError = none)
    (now1 now2 : Nat) (hwin : now2 - now1 < 3600)
    (categoryId productId category slug : String) (sp : CatSearchParams) :
    ((getFeaturedProducts db emptyStore now1).2.2 = true ∧
      (getFeaturedProducts db (getFeaturedProducts db emptyStore now1).2.1 now2).2.2 = false ∧
      (getFeaturedProducts db (getFeaturedProducts db emptyStore now1).2.1 now2).1 =
        (getFeaturedProducts db emptyStore now1).1) ∧
    ((getProductCountByCategory db emptyStore now1 categoryId).2.2 = true ∧
      (getProductCountByCategory db (getProductCountByCategory db emptyStore now1 categoryId).2.1
        now2 categoryId).2.2 = false ∧
      (getProductCountByCategory db (getProductCountByCategory db emptyStore now1 categoryId).2.1
        now2 categoryId).1 = (getProductCountByCategory db emptyStore now1 categoryId).1) ∧
    ((getCategories db emptyStore now1).2.2 = true ∧
      (getCategories db (getCategories db emptyStore now1).2.1 now2).2.2 = false ∧
      (getCategories db (getCategories db emptyStore now1).2.1 now2).1 =
        (getCategories db emptyStore now1).1) ∧
    ((getProductById db emptyStore now1 productId).2.2 = true ∧
      (getProductById db (getProductById db emptyStore now1 productId).2.1 now2 productId).2.2 = false ∧
      (getProductById db (getProductById db emptyStore now1 productId).2.1 now2 productId).1 =
        (getProductById db emptyStore now1 productId).1) ∧
    ((getRelatedProducts db emptyStore now1 productId).2.2 = true ∧
      (getRelatedProducts db (getRelatedProducts db emptyStore now1 productId).2.1 now2 productId).2.2 = false ∧
      (getRelatedProducts db (getRelatedProducts db emptyStore now1 productId).2.1 now2 productId).1 =
        (getRelatedProducts db emptyStore now1 productId).1) ∧
    ((getProductsByCategory db emptyStore now1 category sp).2.2 = true ∧
      (getProductsByCategory db (getProductsByCategory db emptyStore now1 category sp).2.1
        now2 category sp).2.2 = false ∧
      (getProductsByCategory db (getProductsByCategory db emptyStore now1 category sp).2.1
        now2 category sp).1 = (getProductsByCategory db emptyStore now1 category sp).1) ∧
    ((getSubCategoriesOfCategory db emptyStore now1 slug).2.2 = true ∧
      (getSubCategoriesOfCategory db (getSubCategoriesOfCategory db emptyStore now1 slug).2.1
        now2 slug).2.2 = false ∧
      (getSubCategoriesOfCategory db (getSubCategoriesOfCategory db emptyStore now1 slug).2.1
        now2 slug).1 = (getSubCategoriesOfCategory db emptyStore now1 slug).1) := by
  refine ⟨?_, ?_, ?_, ?_, ?_, ?_, ?_⟩
  · exact reader_two_calls (getFeaturedProducts db) _ _ 3600 _ (fun _ _ => rfl)
      (by simp [dbFind, hdb, Except.map, Except.isOk, Except.toBool]) now1 now2 hwin
  · exact reader_two_calls (fun store now => getProductCountByCategory db store now categoryId)
      _ _ 3600 _ (fun _ _ => rfl)
      (by simp [dbCountBy, hdb, Except.isOk, Except.toBool]) now1 now2 hwin
  · exact reader_two_calls (getCategories db) _ _ 3600 _ (fun _ _ => rfl)
      (by simp [hdb, Except.isOk, Except.toBool]) now1 now2 hwin
  · exact reader_two_calls (fun store now => getProductById db store now productId)
      _ _ 3600 _ (fun _ _ => rfl)
      (by simp [dbFindById, hdb, Except.isOk, Except.toBool]) now1 now2 hwin
  · refine reader_two_calls (fun store now => getRelatedProducts db store now productId)
      _ _ 3600 _ (fun _ _ => rfl) ?_ now1 now2 hwin
    cases hfind : db.products.find? (fun p => p._id == productId) with
    | none =>
      simp [getRelatedProductsCb, dbFindById, hdb, hfind, except_bind_ok, pure, Except.pure,
        Except.isOk, Except.toBool]
    | some p =>
      simp [getRelatedProductsCb, dbFindById, dbFind, hdb, hfind, except_bind_ok, pure,
        Except.pure, Except.isOk, Except.toBool]
  · exact reader_two_calls (fun store now => getProductsByCategory db store now category sp)
      _ _ 3600 _ (fun _ _ => rfl)
      (by simp [getProductsByCategoryCb, Except.isOk, Except.toBool]) now1 now2 hwin
  · exact reader_two_calls (fun store now => getSubCategoriesOfCategory db store now slug)
      _ _ 3600 _ (fun _ _ => rfl)
      (by simp [getSubCategoriesOfCategoryCb, Except.isOk, Except.toBool]) now1 now2 hwin

/-- Witness for C5: two concrete readers called twice ten seconds apart
over the empty database. -/
theorem cached_readers_invoke_once_witness :
    (getFeaturedProducts dbEmpty (getFeaturedProducts dbEmpty emptyStore 0).2.1 10).2.2 = false ∧
    (getSubCategoriesOfCategory dbEmpty
      (getSubCategoriesOfCategory dbEmpty emptyStore 0 "shoes").2.1 10 "shoes").2.2 = false :=
  ⟨((cached_readers_invoke_once dbEmpty rfl 0 10 (by decide) "c" "p" "shoes" "shoes" {}).1).2.1,
   ((cached_readers_invoke_once dbEmpty rfl 0 10 (by decide) "c" "p" "shoes"
      "shoes" {}).2.2.2.2.2.2).2.1⟩

/-- C7: when the driver throws, `getProductsByCategory` and
`getSubCategoriesOfCategory` still return a failure envelope carrying the
error message instead of propagating, and on success they return a success
envelope with the data; the five plain cache readers have no catch and let
the thrown error propagate to their caller. -/
theorem envelope_vs_propagation (db : Db) (now : Nat)
    (category slug productId categoryId : String) (sp : CatSearchParams) :
    (∀ e, db.driverError = some e →
      (getProductsByCategory db emptyStore now category sp).1 = .ok (.failure e) ∧
      (getSubCategoriesOfCategory db emptyStore now slug).1 = .ok (.failure e) ∧
      (getFeaturedProducts db emptyStore now).1 = .error e ∧
      (getProductCountByCategory db emptyStore now categoryId).1 = .error e ∧
      (getCategories db emptyStore now).1 = .error e ∧
      (getProductById db emptyStore now productId).1 = .error e ∧
      (getRelatedProducts db emptyStore now productId).1 = .error e) ∧
    (db.driverError = none →
      (getProductsByCategory db emptyStore now category sp).1 =
        .ok (.success ("Successfully fetched products for category: " ++ category)
          (sortByCreatedAtDesc
            (db.products.filter (matchesConditions (buildMatchConditions category sp))))) ∧
      (getSubCategoriesOfCategory db emptyStore now slug).1 =
        .ok (.success "Fetched subcategories!"
          (db.subcategories.filter (fun c => c.categorySlug == slug)))) := by
  constructor
  · intro e h
    refine ⟨?_, ?_, ?_, ?_, ?_, ?_, ?_⟩
    · simp [getProductsByCategory, cacheCall, lookupEntry, emptyStore,
        getProductsByCategoryCb, dbFind, h]
    · simp [getSubCategoriesOfCategory, cacheCall, lookupEntry, emptyStore,
        getSubCategoriesOfCategoryCb, dbFindSubcategories, h]
    · simp [getFeaturedProducts, cacheCall, lookupEntry, emptyStore, dbFind, h, Except.map]
    · simp [getProductCountByCategory, cacheCall, lookupEntry, emptyStore, dbCountBy, h]
    · simp [getCategories, cacheCall, lookupEntry, emptyStore, h]
    · simp [getProductById, cacheCall, lookupEntry, emptyStore, dbFindById, h]
    · simp [getRelatedProducts, cacheCall, lookupEntry, emptyStore,
        getRelatedProductsCb, dbFindById, h, except_bind_error]
  · intro h
    constructor
    · simp [getProductsByCategory, cacheCall, lookupEntry, emptyStore,
        getProductsByCategoryCb, dbFind, h]
    · simp [getSubCategoriesOfCategory, cacheCall, lookupEntry, emptyStore,
        getSubCategoriesOfCategoryCb, dbFindSubcategories, h]

/-- A database whose driver always throws `boom`. -/
def dbBoom : Db := ⟨[], [], [], some "boom"⟩

/-- Witness for C7: over the failing driver the envelope readers wrap the
message and a plain reader throws; over the healthy empty database the
envelope readers report success. -/
theorem envelope_vs_propagation_witness :
    (getProductsByCategory dbBoom emptyStore 0 "shoes" {}).1 = .ok (.failure "boom") ∧
    (getFeaturedProducts dbBoom emptyStore 0).1 = .error "boom" ∧
    (getSubCategoriesOfCategory dbEmpty emptyStore 0 "shoes").1 =
      .ok (.success "Fetched subcategories!" []) :=
  ⟨((envelope_vs_propagation dbBoom 0 "shoes" "shoes" "p" "c" {}).1 "boom" rfl).1,
   ((envelope_vs_propagation dbBoom 0 "shoes" "shoes" "p" "c" {}).1 "boom" rfl).2.2.1,
   ((envelope_vs_propagation dbEmpty 0 "shoes" "shoes" "p" "c" {}).2 rfl).2⟩

/-- C9: `getSubCategoriesOfCategory` caches under the constant key
`subcategories` for every slug, so a second call with a different slug
inside the window does not run its own query and returns the first slug's
cached envelope. -/
theorem getSubCategoriesOfCategory_shared_cache_key (db : Db) (hdb : db.driverError = none)
    (now1 now2 : Nat) (hwin : now2 - now1 < 3600) (s1 s2 : String) (hne : s1 ≠ s2) :
    (getSubCategoriesOfCategory db (getSubCategoriesOfCategory db emptyStore now1 s1).2.1
      now2 s2).2.2 = false ∧
    (getSubCategoriesOfCategory db (getSubCategoriesOfCategory db emptyStore now1 s1).2.1
      now2 s2).1 =
      .ok (.success "Fetched subcategories!"
        (db.subcategories.filter (fun c => c.categorySlug == s1))) := by
  have hcb : (fun _ : Unit => getSubCategoriesOfCategoryCb db s1) () =
      .ok (.success "Fetched subcategories!"
        (db.subcategories.filter (fun c => c.categorySlug == s1))) := by
    simp [getSubCategoriesOfCategoryCb, dbFindSubcategories, hdb]
  have htwo := cacheCall_two now1 now2 3600 ["subcategories"] ["subcategories"] ["subcategories"]
    (fun _ => getSubCategoriesOfCategoryCb db s1) (fun _ => getSubCategoriesOfCategoryCb db s2)
    (.success "Fetched subcategories!" (db.subcategories.filter (fun c => c.categorySlug == s1)))
    hcb hwin
  have h1 : getSubCategoriesOfCategory db emptyStore now1 s1 =
      (.ok (.success "Fetched subcategories!"
          (db.subcategories.filter (fun c => c.categorySlug == s1))),
        ⟨[(["subcategories"],
          ⟨.success "Fetched subcategories!"
            (db.subcategories.filter (fun c => c.categorySlug == s1)), now1⟩)]⟩, true) := htwo.1
  rw [h1]
  have h2 := htwo.2
  exact ⟨by rw [show (getSubCategoriesOfCategory db _ now2 s2) = _ from h2],
    by rw [show (getSubCategoriesOfCategory db _ now2 s2) = _ from h2]⟩

/-- Two subcategory documents under different parent categories. -/
def subMen : Subcategory := ⟨"sub1", "Boots", "boots", "men"⟩

/-- The second subcategory document. -/
def subWomen : Subcategory := ⟨"sub2", "Heels", "heels", "women"⟩

/-- A database holding one subcategory per parent category. -/
def dbTwoSubs : Db := ⟨[], [], [subMen, subWomen], none⟩

/-- Witness for C9: after a call for `men`, a call for `women` ten seconds
later is answered from the cache with the `men` subcategories. -/
theorem getSubCategoriesOfCategory_shared_cache_key_witness :
    (getSubCategoriesOfCategory dbTwoSubs
      (getSubCategoriesOfCategory dbTwoSubs emptyStore 0 "men").2.1 10 "women").1 =
      .ok (.success "Fetched subcategories!" [subMen]) :=
  (getSubCategoriesOfCategory_shared_cache_key dbTwoSubs rfl 0 10 (by decide)
    "men" "women" (by decide)).2

/-- C10: when no product has the requested id, the `getRelatedProducts`
callback returns the empty list without issuing the `$or` related-products
query (the boolean in the cached value records whether that query ran). -/
theorem getRelatedProducts_missing_product (db : Db) (hdb : db.driverError = none)
    (now : Nat) (productId : String)
    (hmiss : db.products.find? (fun p => p._id == productId) = none) :
    (getRelatedProducts db emptyStore now productId).1 = .ok ([], false) := by
  simp [getRelatedProducts, cacheCall, lookupEntry, emptyStore, getRelatedProductsCb,
    dbFindById, hdb, hmiss, except_bind_ok, pure, Except.pure]

/-- Witness for C10: an unknown product id over the empty database. -/
theorem getRelatedProducts_missing_product_witness :
    (getRelatedProducts dbEmpty emptyStore 0 "missing").1 = .ok ([], false) :=
  getRelatedProducts_missing_product dbEmpty rfl 0 "missing" rfl

/-- The schema output for the example input. -/
def exParsed : ParsedSearch := ⟨some "price.asc", none, none, none⟩

/-- The projected form of the example product priced 20. -/
def exProj1 : ProjectedProduct := ⟨"p1", "A", "", [], "Shoes", "Sneakers", 20, 5, 100, 100⟩

/-- The projected form of the example product priced 10. -/
def exProj2 : ProjectedProduct := ⟨"p2", "B", "", [], "Shoes", "Sneakers", 10, 5, 200, 200⟩

/-- The result of `getProducts` on the example input and database. -/
def exResult : GetProductsResult := ⟨[exProj2, exProj1], 1⟩

/-- Witness for C8: the general page-count identity applied to the
concrete example run. -/
theorem getProducts_sorted_example_and_pageCount_witness :
    exResult.pageCount =
      ceilDiv (Int.ofNat (exDb.products.filter (matchesFilter (filterOf exParsed))).length)
        (limitOf exInput) :=
  getProducts_sorted_example_and_pageCount.2.2 exInput exDb exParsed exResult
    (by decide) (by decide)
